import Mathlib

/-!
Verification of the youtu-rag documentation-site configuration.

Shallow embedding of `src/docs/app/[lang]/layout.tsx`,
`src/docs/app/layout.config.tsx` and the content-collection
configuration (`src/unnamed/part_000`), with theorems settling the
spec's claims about locale-dependent metadata selection, the layout
provider wiring, static-param enumeration and the shared layout
options.

JavaScript object lookup `table[lang]` is modelled as a total function
`String → Option α` (a missing key is `none`); the code's `a || b`
fallback is modelled by its JavaScript falsiness semantics (`undefined`
and the empty string are falsy; every array is truthy).
-/

namespace YoutuRag

/-- JavaScript `a || b` where `a` is a possibly-missing string property:
returns `a` when it is defined and non-empty (truthy), else `b`. -/
def jsOrString (a : Option String) (b : String) : String :=
  match a with
  | some s => if s = "" then b else s
  | none => b

/-- JavaScript `a || b` where `a` is a possibly-missing array property:
every array is truthy, so `a` is returned whenever it is defined. -/
def jsOrList (a : Option (List String)) (b : List String) : List String :=
  match a with
  | some l => l
  | none => b

/-- The spec's uniform lookup rule:
`resolve(table, locale, default) -> table[locale] ?? table[default]`. -/
def resolve {α : Type} (table : String → Option α) (lang dflt : String) : Option α :=
  match table lang with
  | some v => some v
  | none => table dflt

/-- Modelled from the spec: the i18n configuration module (`@/lib/i18n`)
is not under `src/`; per the spec the site supports locales `en` and
`zh`, with `en` the designated default locale. -/
def i18nLanguages : List String := ["en", "zh"]

/-- Modelled from the spec: the designated default locale of the i18n
configuration module, absent from `src/`. -/
def i18nDefaultLanguage : String := "en"

/-- A `{ lang }` params object produced by `generateStaticParams`. -/
structure StaticParam where
  lang : String
deriving DecidableEq, Repr

/-- `generateStaticParams` from `src/docs/app/[lang]/layout.tsx`:
`i18n.languages.map((lang) => ({ lang }))`. -/
def generateStaticParams : List StaticParam :=
  i18nLanguages.map (fun lang => { lang := lang })

/-- The `titles` table of `generateMetadata`. -/
def titles (lang : String) : Option String :=
  if lang = "en" then
    some "Youtu-RAG - An open-source multimodal RAG system for complex documents"
  else if lang = "zh" then
    some "Youtu-RAG - 开源的多模态 RAG 系统，专注于复杂文档理解"
  else none

/-- The `descriptions` table of `generateMetadata`. -/
def descriptions (lang : String) : Option String :=
  if lang = "en" then
    some "Youtu-RAG is an open-source multimodal RAG system designed for complex document understanding. It provides advanced capabilities for parsing, chunking, embedding, and retrieving information from various document types including PDFs, images, Excel files, and databases."
  else if lang = "zh" then
    some "Youtu-RAG 是一个开源的多模态 RAG 系统，专注于复杂文档理解。提供先进的文档解析、分块、嵌入和检索能力，支持 PDF、图片、Excel、数据库等多种文档类型。"
  else none

/-- The `keywordsMap` table of `generateMetadata`. -/
def keywordsMap (lang : String) : Option (List String) :=
  if lang = "en" then
    some ["Youtu-RAG", "RAG", "Multimodal", "Document Understanding", "AI", "Open Source", "HiChunk", "Embedding"]
  else if lang = "zh" then
    some ["Youtu-RAG", "RAG", "多模态", "文档理解", "AI", "开源", "HiChunk", "向量嵌入"]
  else none

/-- The local `locales` table inside `generateMetadata` (it shadows the
module-level `locales` list), mapping a language to an Open Graph
locale tag. -/
def ogLocales (lang : String) : Option String :=
  if lang = "en" then some "en_US"
  else if lang = "zh" then some "zh_CN"
  else none

/-- `const title = titles[lang as keyof typeof titles] || titles.en`. -/
def metaTitle (lang : String) : String :=
  jsOrString (titles lang) "Youtu-RAG - An open-source multimodal RAG system for complex documents"

/-- `const description = descriptions[...] || descriptions.en`. -/
def metaDescription (lang : String) : String :=
  jsOrString (descriptions lang) "Youtu-RAG is an open-source multimodal RAG system designed for complex document understanding. It provides advanced capabilities for parsing, chunking, embedding, and retrieving information from various document types including PDFs, images, Excel files, and databases."

/-- `const keywords = keywordsMap[...] || keywordsMap.en`. -/
def metaKeywords (lang : String) : List String :=
  jsOrList (keywordsMap lang) ["Youtu-RAG", "RAG", "Multimodal", "Document Understanding", "AI", "Open Source", "HiChunk", "Embedding"]

/-- `const locale = locales[...] || locales.en` (the Open Graph locale). -/
def metaOgLocale (lang : String) : String :=
  jsOrString (ogLocales lang) "en_US"

/-- The `icons` record of the returned metadata. -/
structure Icons where
  icon : String
  apple : String
deriving DecidableEq, Repr

/-- One entry of `openGraph.images`. -/
structure OGImage where
  url : String
  width : Nat
  height : Nat
  alt : String
deriving DecidableEq, Repr

/-- The `openGraph` record of the returned metadata. -/
structure OpenGraph where
  title : String
  description : String
  images : List OGImage
  locale : String
  type : String
deriving DecidableEq, Repr

/-- The `twitter` record of the returned metadata. -/
structure TwitterCard where
  card : String
  title : String
  description : String
  images : List String
deriving DecidableEq, Repr

/-- The metadata object returned by `generateMetadata`. -/
structure Metadata where
  title : String
  description : String
  keywords : List String
  icons : Icons
  openGraph : OpenGraph
  twitter : TwitterCard
deriving DecidableEq, Repr

/-- `generateMetadata` from `src/docs/app/[lang]/layout.tsx`, after the
`params` promise has been resolved to its `lang` field. -/
def generateMetadata (lang : String) : Metadata :=
  let title := metaTitle lang
  let description := metaDescription lang
  let keywords := metaKeywords lang
  let locale := metaOgLocale lang
  { title := title
    description := description
    keywords := keywords
    icons := { icon := "/images/favicon.png", apple := "/images/favicon.png" }
    openGraph :=
      { title := title
        description := description
        images := [{ url := "/images/hello-adp.png", width := 1200, height := 630, alt := "Youtu-RAG Logo" }]
        locale := locale
        type := "website" }
    twitter :=
      { card := "summary_large_image"
        title := title
        description := description
        images := ["/images/hello-adp.png"] } }

/-- `const zh: Partial<Translations> = { search: '搜索' }`, modelled as
an association list of the translation keys that are set. -/
def zh : List (String × String) := [("search", "搜索")]

/-- One entry of the module-level `locales` list. -/
structure LocaleEntry where
  name : String
  locale : String
deriving DecidableEq, Repr

/-- The module-level `locales` list of available language configurations. -/
def locales : List LocaleEntry :=
  [{ name := "English", locale := "en" }, { name := "中文", locale := "zh" }]

/-- `const translations = { zh }[lang]`: a lookup in an object whose
single key is `zh`. -/
def translationsFor (lang : String) : Option (List (String × String)) :=
  if lang = "zh" then some zh else none

/-- The `i18n` prop handed to `ClientRootProvider`. -/
structure I18nProp where
  locale : String
  locales : List LocaleEntry
  translations : Option (List (String × String))
deriving DecidableEq, Repr

/-- The element returned by `Layout`: the children wrapped in
`ClientRootProvider` with its `i18n` prop. -/
structure LayoutResult (Child : Type) where
  i18n : I18nProp
  children : Child

/-- The `Layout` component from `src/docs/app/[lang]/layout.tsx`, after
the `params` promise has been resolved to its `lang` field. -/
def Layout {Child : Type} (children : Child) (lang : String) : LayoutResult Child :=
  { i18n := { locale := lang, locales := locales, translations := translationsFor lang }
    children := children }

/-- The navigation title logo of `baseOptions` (an `Image` element). -/
structure NavLogo where
  src : String
  alt : String
  width : Nat
  height : Nat
deriving DecidableEq, Repr

/-- The layout-option value returned by `baseOptions`: the shared i18n
configuration plus the navigation title logo. -/
structure BaseLayoutOptions where
  i18nLanguages : List String
  i18nDefaultLanguage : String
  navTitle : NavLogo
deriving DecidableEq, Repr

/-- Modelled from the spec: `getAssetPath` (`@/lib/utils`) is not under
`src/`; the spec describes `baseOptions` as returning "a static
navigation configuration (a logo image reference)", so the asset path
is the literal path it is given. -/
def getAssetPath (p : String) : String := p

/-- `baseOptions` from `src/docs/app/layout.config.tsx`. -/
def baseOptions (locale : String) : BaseLayoutOptions :=
  { i18nLanguages := i18nLanguages
    i18nDefaultLanguage := i18nDefaultLanguage
    navTitle := { src := getAssetPath "/assets/logo.svg", alt := "Youtu-RAG", width := 100, height := 50 } }

/-- One collection registered by `defineDocs` in the content-collection
configuration (`src/unnamed/part_000`); `schema` is the custom
frontmatter/meta schema when one is supplied. -/
structure CollectionDef where
  name : String
  schema : Option String
deriving DecidableEq, Repr

/-- The collections registered by
`defineDocs({ docs: { }, meta: { } })`: both use the default schema. -/
def docsCollections : List CollectionDef :=
  [{ name := "docs", schema := none }, { name := "meta", schema := none }]

/-- C1: for every locale string `lang` that is neither `en` nor `zh`,
`generateMetadata` returns the default-locale (`en`) metadata: the
English title, English description, English keyword list and Open
Graph locale `en_US` — indeed the whole metadata object equals the one
generated for `en`. -/
theorem generateMetadata_fallback_to_en (lang : String)
    (h1 : lang ≠ "en") (h2 : lang ≠ "zh") :
    (generateMetadata lang).title =
      "Youtu-RAG - An open-source multimodal RAG system for complex documents" ∧
    (generateMetadata lang).description =
      "Youtu-RAG is an open-source multimodal RAG system designed for complex document understanding. It provides advanced capabilities for parsing, chunking, embedding, and retrieving information from various document types including PDFs, images, Excel files, and databases." ∧
    (generateMetadata lang).keywords =
      ["Youtu-RAG", "RAG", "Multimodal", "Document Understanding", "AI", "Open Source", "HiChunk", "Embedding"] ∧
    (generateMetadata lang).openGraph.locale = "en_US" ∧
    generateMetadata lang = generateMetadata "en" := by
  simp [generateMetadata, metaTitle, metaDescription, metaKeywords, metaOgLocale,
    titles, descriptions, keywordsMap, ogLocales, jsOrString, jsOrList, h1, h2]

/-- Witness for C1 at the concrete unsupported locale `fr`. -/
theorem generateMetadata_fallback_to_en_witness :
    (generateMetadata "fr").title =
      "Youtu-RAG - An open-source multimodal RAG system for complex documents" ∧
    (generateMetadata "fr").description =
      "Youtu-RAG is an open-source multimodal RAG system designed for complex document understanding. It provides advanced capabilities for parsing, chunking, embedding, and retrieving information from various document types including PDFs, images, Excel files, and databases." ∧
    (generateMetadata "fr").keywords =
      ["Youtu-RAG", "RAG", "Multimodal", "Document Understanding", "AI", "Open Source", "HiChunk", "Embedding"] ∧
    (generateMetadata "fr").openGraph.locale = "en_US" ∧
    generateMetadata "fr" = generateMetadata "en" :=
  generateMetadata_fallback_to_en "fr" (by decide) (by decide)

/-- C2: for each supported locale (`en` and `zh`), `generateMetadata`
returns exactly that locale's configured title, description, keyword
set and Open Graph locale tag, and the Open Graph image alt text is
the configured `Youtu-RAG Logo`. -/
theorem generateMetadata_supported_locales_exact :
    ((generateMetadata "en").title =
        "Youtu-RAG - An open-source multimodal RAG system for complex documents" ∧
      (generateMetadata "en").description =
        "Youtu-RAG is an open-source multimodal RAG system designed for complex document understanding. It provides advanced capabilities for parsing, chunking, embedding, and retrieving information from various document types including PDFs, images, Excel files, and databases." ∧
      (generateMetadata "en").keywords =
        ["Youtu-RAG", "RAG", "Multimodal", "Document Understanding", "AI", "Open Source", "HiChunk", "Embedding"] ∧
      (generateMetadata "en").openGraph.locale = "en_US" ∧
      (generateMetadata "en").openGraph.images.map OGImage.alt = ["Youtu-RAG Logo"]) ∧
    ((generateMetadata "zh").title = "Youtu-RAG - 开源的多模态 RAG 系统，专注于复杂文档理解" ∧
      (generateMetadata "zh").description =
        "Youtu-RAG 是一个开源的多模态 RAG 系统，专注于复杂文档理解。提供先进的文档解析、分块、嵌入和检索能力，支持 PDF、图片、Excel、数据库等多种文档类型。" ∧
      (generateMetadata "zh").keywords =
        ["Youtu-RAG", "RAG", "多模态", "文档理解", "AI", "开源", "HiChunk", "向量嵌入"] ∧
      (generateMetadata "zh").openGraph.locale = "zh_CN" ∧
      (generateMetadata "zh").openGraph.images.map OGImage.alt = ["Youtu-RAG Logo"]) :=
  ⟨⟨rfl, rfl, rfl, rfl, rfl⟩, ⟨rfl, rfl, rfl, rfl, rfl⟩⟩

/-- C3: for every locale string, each of the four per-field selections
of `generateMetadata` (title, description, keywords, Open Graph
locale) equals the spec's uniform rule
`resolve(table, lang, en) = table[lang] ?? table[en]` applied to that
field's table: the code's falsiness-based `||` lookups coincide with
the `??`-style resolve because no table value is falsy. -/
theorem metadata_selection_eq_resolve (lang : String) :
    some (metaTitle lang) = resolve titles lang "en" ∧
    some (metaDescription lang) = resolve descriptions lang "en" ∧
    some (metaKeywords lang) = resolve keywordsMap lang "en" ∧
    some (metaOgLocale lang) = resolve ogLocales lang "en" := by
  by_cases h1 : lang = "en"
  · subst h1; exact ⟨rfl, rfl, rfl, rfl⟩
  · by_cases h2 : lang = "zh"
    · subst h2; exact ⟨rfl, rfl, rfl, rfl⟩
    · simp [metaTitle, metaDescription, metaKeywords, metaOgLocale, resolve,
        titles, descriptions, keywordsMap, ogLocales, jsOrString, jsOrList, h1, h2]

/-- C4: every locale-dependent selection in the repository substitutes
the default locale's content silently when the requested locale is
unrecognized: the four metadata selections yield the `en` values, and
the `Layout` translations selection yields exactly what the default
locale `en` would receive (no selection fails — all are total
functions). -/
theorem unrecognized_locale_silent_default (lang : String)
    (h1 : lang ≠ "en") (h2 : lang ≠ "zh") :
    metaTitle lang = metaTitle "en" ∧
    metaDescription lang = metaDescription "en" ∧
    metaKeywords lang = metaKeywords "en" ∧
    metaOgLocale lang = metaOgLocale "en" ∧
    translationsFor lang = translationsFor "en" := by
  simp [metaTitle, metaDescription, metaKeywords, metaOgLocale, translationsFor,
    titles, descriptions, keywordsMap, ogLocales, jsOrString, jsOrList, h1, h2]

/-- Witness for C4 at the concrete unrecognized locale `de`. -/
theorem unrecognized_locale_silent_default_witness :
    metaTitle "de" = metaTitle "en" ∧
    metaDescription "de" = metaDescription "en" ∧
    metaKeywords "de" = metaKeywords "en" ∧
    metaOgLocale "de" = metaOgLocale "en" ∧
    translationsFor "de" = translationsFor "en" :=
  unrecognized_locale_silent_default "de" (by decide) (by decide)

/-- C5: `generateStaticParams` returns exactly one `{ lang }` params
object per supported language, in the order of the i18n
configuration's language list. -/
theorem generateStaticParams_one_per_language :
    generateStaticParams = [{ lang := "en" }, { lang := "zh" }] ∧
    generateStaticParams.map StaticParam.lang = i18nLanguages := ⟨rfl, rfl⟩

/-- C6: the content-collection configuration registers exactly two
collections, named `docs` and `meta`, and neither supplies a custom
schema (both use the framework default). -/
theorem docsCollections_two_default_schema :
    docsCollections.map CollectionDef.name = ["docs", "meta"] ∧
    docsCollections.length = 2 ∧
    ∀ c ∈ docsCollections, c.schema = none := by
  refine ⟨rfl, rfl, ?_⟩
  intro c hc
  simp [docsCollections] at hc
  rcases hc with h | h <;> simp [h]

/-- C7: for every locale string and every children tree, `Layout`
returns the children wrapped in the `ClientRootProvider` whose `i18n`
prop has `locale` equal to the requested language and `locales` equal
to the fixed two-entry list (English `en`, 中文 `zh`). -/
theorem layout_wraps_children_with_provider {Child : Type}
    (children : Child) (lang : String) :
    (Layout children lang).children = children ∧
    (Layout children lang).i18n.locale = lang ∧
    (Layout children lang).i18n.locales =
      [{ name := "English", locale := "en" }, { name := "中文", locale := "zh" }] :=
  ⟨rfl, rfl, rfl⟩

/-- C8: the translations value `Layout` passes to the provider is
`undefined` (`none`) for every locale other than `zh` — including `en`
and unrecognized locales — and only `zh` receives a translations
table; there is no default-locale translation table to fall back to. -/
theorem layout_translations_only_zh {Child : Type}
    (children : Child) (lang : String) (h : lang ≠ "zh") :
    (Layout children lang).i18n.translations = none ∧
    (Layout children "zh").i18n.translations = some zh := by
  constructor
  · simp [Layout, translationsFor, h]
  · rfl

/-- Witness for C8 at the concrete locale `en` (with a unit children
tree): even the default locale receives no translations table. -/
theorem layout_translations_only_zh_witness :
    (Layout (Unit.unit) "en").i18n.translations = none ∧
    (Layout (Unit.unit) "zh").i18n.translations = some zh :=
  layout_translations_only_zh Unit.unit "en" (by decide)

/-- C9: `baseOptions` ignores its locale argument — any two locales
yield equal layout options — and the returned value carries the shared
i18n configuration together with the navigation title logo
(`/assets/logo.svg`, alt `Youtu-RAG`, width 100, height 50). -/
theorem baseOptions_ignores_locale (l1 l2 : String) :
    baseOptions l1 = baseOptions l2 ∧
    baseOptions l1 =
      { i18nLanguages := i18nLanguages
        i18nDefaultLanguage := i18nDefaultLanguage
        navTitle := { src := "/assets/logo.svg", alt := "Youtu-RAG", width := 100, height := 50 } } :=
  ⟨rfl, rfl⟩

/-- C10: for every locale string, the non-localized metadata fields are
constants: both icons are `/images/favicon.png`, the single Open Graph
image is `/images/hello-adp.png` (1200×630, alt `Youtu-RAG Logo`),
`openGraph.type` is `website`, and the Twitter card is
`summary_large_image` with image `/images/hello-adp.png`. -/
theorem generateMetadata_constant_fields (lang : String) :
    (generateMetadata lang).icons =
      { icon := "/images/favicon.png", apple := "/images/favicon.png" } ∧
    (generateMetadata lang).openGraph.images =
      [{ url := "/images/hello-adp.png", width := 1200, height := 630, alt := "Youtu-RAG Logo" }] ∧
    (generateMetadata lang).openGraph.type = "website" ∧
    (generateMetadata lang).twitter.card = "summary_large_image" ∧
    (generateMetadata lang).twitter.images = ["/images/hello-adp.png"] :=
  ⟨rfl, rfl, rfl, rfl, rfl⟩

end YoutuRag
